import Mathlib

/-!
Verification of the Superbecks point-of-sale front end (src/app/owner/page.tsx
and related pages) against its specification.

Modelling conventions:
* JavaScript numbers used as currency are modelled as exact rationals (ℚ);
  `Number(x.toFixed(2))` is modelled by `round2` (round half up to 2 decimals).
* JavaScript numbers used as quantities are modelled as integers (ℤ).
* Backend calls return `(data, error)` pairs; an operation's backend effects are
  modelled by the list of write requests it issues, and failures are injected by
  a schedule (`Sched`) giving for each successive backend write either `none`
  (success) or `some msg` (failure with error message `msg`).
* `alert(...)` messages shown to the user are collected in a list of strings.
-/

namespace Superbecks

/-- JavaScript `String.prototype.trim`: strip leading and trailing whitespace.
Modelled structurally over the character list (the common whitespace
characters; enough for the verified claims, which only use it on ordinary
text). -/
def jsWhitespace (c : Char) : Bool :=
  c = ' ' || c = '\t' || c = '\n' || c = '\r'

/-- JS `s.trim()`, structural so that it evaluates inside the kernel. -/
def jsTrim (s : String) : String :=
  String.mk (((s.data.dropWhile jsWhitespace).reverse.dropWhile jsWhitespace).reverse)

/-- Rounding to 2 decimal places, half up: the model of
`Number(x.toFixed(2))` on non-negative currency amounts. -/
def round2 (q : ℚ) : ℚ :=
  ((⌊q * 100 + 1/2⌋ : ℤ) : ℚ) / 100

/-- A menu catalog entry (`MenuItem` in the TS source): `id`, `name`,
`category`, `price` (`is_active` is irrelevant to the verified claims). -/
structure MenuItem where
  id : String
  name : String
  category : Option String
  price : ℚ
deriving Repr, DecidableEq

/-- An in-memory replacement-editor line (`ReplaceLine` in the TS source). -/
structure ReplaceLine where
  id : String
  menu_item_id : String
  name : String
  unit_price : ℚ
  qty : ℤ
deriving Repr, DecidableEq

/-! ## Replacement-editor operations (owner/page.tsx, `repInc`/`repDec`/`repRemove`/`repAdd`)

Each operates purely on the in-memory list `replaceLines` (the `prev` argument
of the `setReplaceLines` updater). -/

/-- `repInc`: increment the quantity of the line for `menuItemId`. -/
def repInc (menuItemId : String) (prev : List ReplaceLine) : List ReplaceLine :=
  prev.map fun l => if l.menu_item_id = menuItemId then { l with qty := l.qty + 1 } else l

/-- `repDec`: decrement the quantity of the line for `menuItemId`,
with `Math.max(1, qty - 1)` as the floor. -/
def repDec (menuItemId : String) (prev : List ReplaceLine) : List ReplaceLine :=
  prev.map fun l => if l.menu_item_id = menuItemId then { l with qty := max 1 (l.qty - 1) } else l

/-- `repRemove`: drop the line for `menuItemId` entirely. -/
def repRemove (menuItemId : String) (prev : List ReplaceLine) : List ReplaceLine :=
  prev.filter fun l => l.menu_item_id ≠ menuItemId

/-- `repAdd`: look up `menuItemId` in the full catalog `menuAll`; if absent do
nothing; if an editor line for it already exists increment that line's quantity,
otherwise append a fresh line with quantity 1. -/
def repAdd (menuAll : List MenuItem) (menuItemId : String) (prev : List ReplaceLine) :
    List ReplaceLine :=
  match menuAll.find? (fun m => m.id = menuItemId) with
  | none => prev
  | some it =>
    match prev.find? (fun l => l.menu_item_id = menuItemId) with
    | some _ => prev.map fun l =>
        if l.menu_item_id = menuItemId then { l with qty := l.qty + 1 } else l
    | none => prev ++
        [{ id := it.id, menu_item_id := it.id, name := it.name,
           unit_price := it.price, qty := 1 }]

/-- The running replacement total `replaceTotal = replaceLines.reduce((sum, l) =>
sum + l.unit_price * l.qty, 0)`. -/
def replaceTotal (lines : List ReplaceLine) : ℚ :=
  lines.foldl (fun sum l => sum + l.unit_price * (l.qty : ℚ)) 0

/-- C8: the four replacement-editor operations preserve the invariant that every
in-memory line has quantity at least 1; `repDec` floors at 1; and when the chosen
item is already present (and exists in the catalog), `repAdd` coincides with the
merge that increments the existing line's quantity, creating no duplicate line. -/
theorem rep_ops_preserve_qty_ge_one (menuAll : List MenuItem) (mid : String)
    (prev : List ReplaceLine) (hinv : ∀ l ∈ prev, 1 ≤ l.qty) :
    (∀ l ∈ repInc mid prev, 1 ≤ l.qty) ∧
    (∀ l ∈ repDec mid prev, 1 ≤ l.qty) ∧
    (∀ l ∈ repRemove mid prev, 1 ≤ l.qty) ∧
    (∀ l ∈ repAdd menuAll mid prev, 1 ≤ l.qty) ∧
    ((∃ l ∈ prev, l.menu_item_id = mid) →
      repAdd menuAll mid prev = repInc mid prev ∨ repAdd menuAll mid prev = prev) ∧
    ((∃ l ∈ prev, l.menu_item_id = mid) →
      (repAdd menuAll mid prev).length = prev.length) := by
  refine ⟨?_, ?_, ?_, ?_, ?_, ?_⟩
  · intro l hl
    simp only [repInc, List.mem_map] at hl
    obtain ⟨a, ha, rfl⟩ := hl
    by_cases h : a.menu_item_id = mid <;> simp [h] <;> have := hinv a ha <;> omega
  · intro l hl
    simp only [repDec, List.mem_map] at hl
    obtain ⟨a, ha, rfl⟩ := hl
    by_cases h : a.menu_item_id = mid <;> simp [h] <;> have := hinv a ha <;> omega
  · intro l hl
    exact hinv l (List.mem_of_mem_filter hl)
  · intro l hl
    unfold repAdd at hl
    cases hfind : menuAll.find? (fun m => m.id = mid) with
    | none => rw [hfind] at hl; exact hinv l hl
    | some it =>
      rw [hfind] at hl
      cases hex : prev.find? (fun l => l.menu_item_id = mid) with
      | some l0 =>
        rw [hex] at hl
        simp only [List.mem_map] at hl
        obtain ⟨a, ha, rfl⟩ := hl
        by_cases h : a.menu_item_id = mid <;> simp [h] <;> have := hinv a ha <;> omega
      | none =>
        rw [hex] at hl
        rcases List.mem_append.mp hl with h | h
        · exact hinv l h
        · simp at h
          simp [h]
  · intro ⟨l0, hl0, hmid⟩
    unfold repAdd
    cases hfind : menuAll.find? (fun m => m.id = mid) with
    | none => right; rfl
    | some it =>
      left
      cases hex : prev.find? (fun l => l.menu_item_id = mid) with
      | some _ => rfl
      | none =>
        exfalso
        have := List.find?_eq_none.mp hex l0 hl0
        simp [hmid] at this
  · intro hx
    rcases hx with ⟨l0, hl0, hmid⟩
    unfold repAdd
    cases hfind : menuAll.find? (fun m => m.id = mid) with
    | none => rfl
    | some it =>
      cases hex : prev.find? (fun l => l.menu_item_id = mid) with
      | some _ => simp
      | none =>
        exfalso
        have := List.find?_eq_none.mp hex l0 hl0
        simp [hmid] at this

/-- Witness for `rep_ops_preserve_qty_ge_one` at a concrete editor state. -/
theorem rep_ops_preserve_qty_ge_one_witness :
    (∀ l ∈ repDec "x"
      [{ id := "x", menu_item_id := "x", name := "X", unit_price := 30, qty := 1 }],
      1 ≤ l.qty) ∧
    (repAdd [{ id := "x", name := "X", category := none, price := 30 }] "x"
      [{ id := "x", menu_item_id := "x", name := "X", unit_price := 30, qty := 1 }]).length =
      1 := by
  have h := rep_ops_preserve_qty_ge_one
    [{ id := "x", name := "X", category := none, price := 30 }] "x"
    [{ id := "x", menu_item_id := "x", name := "X", unit_price := 30, qty := 1 }]
    (by decide)
  exact ⟨h.2.1, h.2.2.2.2.2 (by decide)⟩

/-! ## Database rows and the void-and-replace workflow -/

/-- A persisted `order_lines` row as written by this app (columns
`order_id, menu_item_id, qty, unit_price, line_total`). -/
structure DbLine where
  order_id : String
  menu_item_id : String
  qty : ℤ
  unit_price : ℚ
  line_total : ℚ
deriving Repr, DecidableEq

/-- An `orders` row as read/updated by the void-and-replace workflow. -/
structure OrderRow where
  id : String
  branch_id : String
  payment_type : String
  total_amount : ℚ
  status : String
deriving Repr, DecidableEq

/-- The object literal inserted into `orders` by `startVoidAndReplace`
(`branch_id, payment_type, total_amount, status, replaces`). -/
structure NewOrderInsert where
  branch_id : String
  payment_type : String
  total_amount : ℚ
  status : String
  replaces : String
deriving Repr, DecidableEq

/-- An old order's `order_lines` row as selected by `startVoidAndReplace`
(`menu_item_id, qty, unit_price, line_total, menu_items(name)`). -/
structure SrcLine where
  menu_item_id : String
  qty : ℤ
  unit_price : ℚ
  line_total : ℚ
  item_name : Option String
deriving Repr, DecidableEq

/-- The success path of `startVoidAndReplace(oldOrderId)` (owner/page.tsx):
given the old order header `old`, its lines `oldLines`, and the id `newId` the
backend generates for the inserted draft order, it returns
(1) the inserted `orders` row literal (status DRAFT, `replaces` = old id,
    branch/payment/total copied),
(2) `newLinesDb`, the `order_lines` rows inserted for `newId`, and
(3) `editorLines`, the in-memory editor representation. -/
def startVoidAndReplace (old : OrderRow) (oldLines : List SrcLine) (newId : String) :
    NewOrderInsert × List DbLine × List ReplaceLine :=
  ({ branch_id := old.branch_id
     payment_type := old.payment_type
     total_amount := old.total_amount
     status := "DRAFT"
     replaces := old.id },
   oldLines.map fun l =>
     { order_id := newId, menu_item_id := l.menu_item_id, qty := l.qty,
       unit_price := l.unit_price, line_total := l.line_total },
   oldLines.map fun l =>
     { id := l.menu_item_id, menu_item_id := l.menu_item_id,
       name := l.item_name.getD "Unknown", unit_price := l.unit_price, qty := l.qty })

/-- C3: after a successful `startVoidAndReplace(oldOrderId)`, the inserted order
row copies the old order's `branch_id`, `payment_type` and `total_amount`, has
status DRAFT and `replaces = oldOrderId`, and the lines inserted for the new
order id agree with the old order's lines in `menu_item_id`, `qty`,
`unit_price` and `line_total` (a round-trip copy). -/
theorem startVoidAndReplace_round_trip (old : OrderRow) (oldLines : List SrcLine)
    (newId : String) :
    (startVoidAndReplace old oldLines newId).1.branch_id = old.branch_id ∧
    (startVoidAndReplace old oldLines newId).1.payment_type = old.payment_type ∧
    (startVoidAndReplace old oldLines newId).1.total_amount = old.total_amount ∧
    (startVoidAndReplace old oldLines newId).1.status = "DRAFT" ∧
    (startVoidAndReplace old oldLines newId).1.replaces = old.id ∧
    ((startVoidAndReplace old oldLines newId).2.1.map fun r =>
      (r.menu_item_id, r.qty, r.unit_price, r.line_total)) =
      (oldLines.map fun l => (l.menu_item_id, l.qty, l.unit_price, l.line_total)) ∧
    (∀ r ∈ (startVoidAndReplace old oldLines newId).2.1, r.order_id = newId) := by
  refine ⟨rfl, rfl, rfl, rfl, rfl, ?_, ?_⟩
  · simp [startVoidAndReplace]
  · intro r hr
    simp only [startVoidAndReplace, List.mem_map] at hr
    obtain ⟨l, _, rfl⟩ := hr
    rfl

/-! ## saveReplacementDraft as a database transformation (success path) -/

/-- The bulk-insert payload of `saveReplacementDraft`: one `order_lines` row per
in-memory line, with `line_total = unit_price * qty`. -/
def draftPayload (newId : String) (lines : List ReplaceLine) : List DbLine :=
  lines.map fun l =>
    { order_id := newId, menu_item_id := l.menu_item_id, qty := l.qty,
      unit_price := l.unit_price, line_total := l.unit_price * (l.qty : ℚ) }

/-- The persisted tables touched by `saveReplacementDraft`. -/
structure Db where
  order_lines : List DbLine
  orders : List OrderRow
deriving Repr, DecidableEq

/-- The successful execution of `saveReplacementDraft()` as a transformation of
the persisted state: (1) delete every `order_lines` row with
`order_id = replaceNewId`, (2) insert `draftPayload` (skipped when empty, which
coincides with appending the empty list), (3) update the new order's
`total_amount` to `replaceTotal`. -/
def applySaveReplacementDraft (newId : String) (lines : List ReplaceLine) (db : Db) : Db :=
  { order_lines :=
      (db.order_lines.filter fun r => r.order_id ≠ newId) ++ draftPayload newId lines,
    orders := db.orders.map fun o =>
      if o.id = newId then { o with total_amount := replaceTotal lines } else o }

/-- Every payload row targets the new order id. -/
theorem draftPayload_order_id (newId : String) (lines : List ReplaceLine) :
    ∀ r ∈ draftPayload newId lines, r.order_id = newId := by
  intro r hr
  simp only [draftPayload, List.mem_map] at hr
  obtain ⟨l, _, rfl⟩ := hr
  rfl

/-- C4: `saveReplacementDraft` run twice with unchanged in-memory lines is
idempotent on persisted state: the `order_lines` rows attached to the new order
id and the whole `orders` table (hence the persisted `total_amount`) agree
after the first and after the second call. -/
theorem saveReplacementDraft_idempotent (newId : String) (lines : List ReplaceLine)
    (db : Db) :
    ((applySaveReplacementDraft newId lines
        (applySaveReplacementDraft newId lines db)).order_lines.filter
          fun r => r.order_id = newId) =
      ((applySaveReplacementDraft newId lines db).order_lines.filter
          fun r => r.order_id = newId) ∧
    (applySaveReplacementDraft newId lines
        (applySaveReplacementDraft newId lines db)).orders =
      (applySaveReplacementDraft newId lines db).orders := by
  have hfull : applySaveReplacementDraft newId lines (applySaveReplacementDraft newId lines db) =
      applySaveReplacementDraft newId lines db := by
    unfold applySaveReplacementDraft
    refine congrArg₂ Db.mk ?_ ?_
    · simp only [List.filter_append]
      have h1 : ((db.order_lines.filter fun r => r.order_id ≠ newId).filter
          fun r => r.order_id ≠ newId) = db.order_lines.filter fun r => r.order_id ≠ newId := by
        rw [List.filter_filter]
        refine List.filter_congr ?_
        intro r _
        simp
      have h2 : ((draftPayload newId lines).filter fun r => r.order_id ≠ newId) = [] := by
        rw [List.filter_eq_nil_iff]
        intro r hr
        simp [draftPayload_order_id newId lines r hr]
      rw [h1, h2, List.append_nil]
    · rw [List.map_map]
      refine List.map_congr_left ?_
      intro o _
      by_cases h : o.id = newId <;> simp [h]
  rw [hfull]
  exact ⟨rfl, rfl⟩

/-! ## Executors with backend-error injection (for the error-handling claims)

A backend write request is one of the five concrete calls the void-and-replace
workflow issues.  A `Sched` assigns to each successively issued write either
`none` (the backend succeeds) or `some msg` (the backend fails with error
message `msg`, which the code surfaces via `alert`); a missing entry means
success.  A failed request still counts as issued. -/

/-- The backend write requests issued by the void-and-replace workflow. -/
inductive BWrite where
  | deleteLines (order_id : String)
  | insertLines (rows : List DbLine)
  | updateTotal (order_id : String) (total : ℚ)
  | updatePaid (order_id : String)
  | updateVoided (order_id voided_at voided_by void_reason replaced_by : String)
deriving Repr, DecidableEq

/-- Error schedule: outcome of each successive backend write. -/
abbrev Sched := List (Option String)

/-- The replacement-editor React state relevant to finalization. -/
structure EditorState where
  replaceOldId : Option String
  replaceNewId : Option String
  replaceLines : List ReplaceLine
  voidReason : String
deriving Repr, DecidableEq

/-- The editor state after a successful finalize (`setReplaceMode(false)` etc.). -/
def resetEditor : EditorState :=
  { replaceOldId := none, replaceNewId := none, replaceLines := [], voidReason := "" }

/-- Execution of `saveReplacementDraft()` (owner/page.tsx): issues the delete,
the bulk insert (only when the payload is non-empty) and the total update in
order, aborting its own remaining calls at the first backend error, whose
message it alerts; its `try/catch` swallows the error, so it always returns
normally.  Returns (writes issued, alerts shown, remaining schedule). -/
def runSaveReplacementDraft (st : EditorState) (sched : Sched) :
    List BWrite × List String × Sched :=
  match st.replaceNewId with
  | none => ([], [], sched)
  | some newId =>
    let w1 := BWrite.deleteLines newId
    match sched.headD none, sched.tail with
    | some msg, s1 => ([w1], [msg], s1)
    | none, s1 =>
      let payload := draftPayload newId st.replaceLines
      if payload.length > 0 then
        let w2 := BWrite.insertLines payload
        match s1.headD none, s1.tail with
        | some msg, s2 => ([w1, w2], [msg], s2)
        | none, s2 =>
          let w3 := BWrite.updateTotal newId (replaceTotal st.replaceLines)
          match s2.headD none, s2.tail with
          | some msg, s3 => ([w1, w2, w3], [msg], s3)
          | none, s3 => ([w1, w2, w3], ["✅ Draft saved."], s3)
      else
        let w3 := BWrite.updateTotal newId (replaceTotal st.replaceLines)
        match s1.headD none, s1.tail with
        | some msg, s2 => ([w1, w3], [msg], s2)
        | none, s2 => ([w1, w3], ["✅ Draft saved."], s2)

/-- Result of running `finalizeReplacement()`: the backend writes issued, the
alerts shown, and the resulting editor state. -/
structure FinalizeRes where
  writes : List BWrite
  alerts : List String
  state : EditorState
deriving Repr, DecidableEq

/-- Execution of `finalizeReplacement()` (owner/page.tsx): silently returns when
no replacement session is active; alerts and returns on the two validation
guards (void reason trimmed length < 3, empty line list); silently returns when
the confirm dialog is declined; alerts "Login required" when no session user;
then runs `saveReplacementDraft()` unconditionally (whose errors are caught
inside it and do not propagate), then updates the new order to PAID and the old
order to VOIDED, aborting with an alert at the first error of those two
updates; on full success alerts and resets the editor state.
`confirmOk` models `window.confirm`, `ownerId` the session user, `nowIso` the
`new Date().toISOString()` timestamp. -/
def runFinalizeReplacement (st : EditorState) (confirmOk : Bool)
    (ownerId : Option String) (nowIso : String) (sched : Sched) : FinalizeRes :=
  match st.replaceOldId, st.replaceNewId with
  | some oldId, some newId =>
    if (jsTrim st.voidReason).length < 3 then
      { writes := [], alerts := ["Please enter a void reason (at least 3 characters)."],
        state := st }
    else if st.replaceLines.length = 0 then
      { writes := [], alerts := ["Replacement cannot be empty. Add at least 1 item."],
        state := st }
    else if !confirmOk then
      { writes := [], alerts := [], state := st }
    else
      match ownerId with
      | none => { writes := [], alerts := ["Login required"], state := st }
      | some owner =>
        let (dw, da, sched1) := runSaveReplacementDraft st sched
        let w4 := BWrite.updatePaid newId
        match sched1.headD none, sched1.tail with
        | some msg, _ => { writes := dw ++ [w4], alerts := da ++ [msg], state := st }
        | none, sched2 =>
          let w5 := BWrite.updateVoided oldId nowIso owner (jsTrim st.voidReason) newId
          match sched2.headD none, sched2.tail with
          | some msg, _ =>
            { writes := dw ++ [w4, w5], alerts := da ++ [msg], state := st }
          | none, _ =>
            { writes := dw ++ [w4, w5], alerts := da ++ ["✅ Replacement finalized."],
              state := resetEditor }
  | _, _ => { writes := [], alerts := [], state := st }

/-- C1 counterexample: a call to `finalizeReplacement` with trimmed void reason
shorter than 3 (here the empty reason) while no replacement session is active
(`replaceOldId = replaceNewId = none`) issues zero backend writes and leaves the
state unchanged, but shows NO validation failure to the user: it returns
silently, refuting the claim's "reports a validation failure" for that call. -/
theorem finalize_short_reason_silent_counterexample :
    (jsTrim "").length < 3 ∧
    (runFinalizeReplacement
        { replaceOldId := none, replaceNewId := none, replaceLines := [], voidReason := "" }
        true (some "owner1") "2026-01-01T00:00:00.000Z" []).writes = [] ∧
    (runFinalizeReplacement
        { replaceOldId := none, replaceNewId := none, replaceLines := [], voidReason := "" }
        true (some "owner1") "2026-01-01T00:00:00.000Z" []).alerts = [] := by
  decide

/-- C1 (amended): when a replacement session is active (both the old and the new
order id are set), every call to `finalizeReplacement` with trimmed void reason
shorter than 3 characters or an empty in-memory line list issues zero backend
writes, leaves the editor state unchanged, and alerts one of the two validation
messages; without an active session the call is a silent no-op. -/
theorem finalize_validation_guard (o n : String) (lines : List ReplaceLine)
    (reason : String) (confirmOk : Bool) (ownerId : Option String) (nowIso : String)
    (sched : Sched) (h : (jsTrim reason).length < 3 ∨ lines = []) :
    (runFinalizeReplacement
        { replaceOldId := some o, replaceNewId := some n,
          replaceLines := lines, voidReason := reason }
        confirmOk ownerId nowIso sched).writes = [] ∧
    (runFinalizeReplacement
        { replaceOldId := some o, replaceNewId := some n,
          replaceLines := lines, voidReason := reason }
        confirmOk ownerId nowIso sched).state =
      { replaceOldId := some o, replaceNewId := some n,
        replaceLines := lines, voidReason := reason } ∧
    ((runFinalizeReplacement
        { replaceOldId := some o, replaceNewId := some n,
          replaceLines := lines, voidReason := reason }
        confirmOk ownerId nowIso sched).alerts =
        ["Please enter a void reason (at least 3 characters)."] ∨
     (runFinalizeReplacement
        { replaceOldId := some o, replaceNewId := some n,
          replaceLines := lines, voidReason := reason }
        confirmOk ownerId nowIso sched).alerts =
        ["Replacement cannot be empty. Add at least 1 item."]) := by
  rcases h with h | h
  · simp [runFinalizeReplacement, h]
  · subst h
    by_cases hr : (jsTrim reason).length < 3
    · simp [runFinalizeReplacement, hr]
    · simp [runFinalizeReplacement, hr]

/-- Witness for `finalize_validation_guard` at a concrete short void reason. -/
theorem finalize_validation_guard_witness :
    ((jsTrim "ab").length < 3 ∨ ([] : List ReplaceLine) = []) ∧
    (runFinalizeReplacement
        { replaceOldId := some "o1", replaceNewId := some "n1",
          replaceLines := [], voidReason := "ab" }
        true (some "u1") "2026-01-01T00:00:00.000Z" []).writes = [] := by
  refine ⟨Or.inl (by decide), ?_⟩
  exact (finalize_validation_guard "o1" "n1" [] "ab" true (some "u1")
    "2026-01-01T00:00:00.000Z" [] (Or.inl (by decide))).1

/-- C2 counterexample: with an active session, valid guards, and a backend that
fails the very first write (the line delete inside the unconditionally chained
`saveReplacementDraft`), `finalizeReplacement` does NOT abort: after the error
it still issues both the PAID update for the new order and the VOIDED update
for the old order (and even reports success), because `saveReplacementDraft`
catches its own errors and never rethrows.  This refutes the claim that every
backend error during finalize stops all further writes. -/
theorem finalize_continues_after_draft_error_counterexample :
    runFinalizeReplacement
        { replaceOldId := some "o1", replaceNewId := some "n1",
          replaceLines := [{ id := "x", menu_item_id := "x", name := "X",
                             unit_price := 45, qty := 1 }],
          voidReason := "wrong item" }
        true (some "u1") "2026-01-01T00:00:00.000Z" [some "delete failed"] =
      { writes := [BWrite.deleteLines "n1", BWrite.updatePaid "n1",
                   BWrite.updateVoided "o1" "2026-01-01T00:00:00.000Z" "u1" "wrong item" "n1"],
        alerts := ["delete failed", "✅ Replacement finalized."],
        state := resetEditor } := by
  decide

/-- C2 (amended): with an active session passing both validation guards, a
backend error in either of `finalizeReplacement`'s own two status updates
aborts immediately — an error in the PAID update means the VOIDED update is
never issued — with the error message shown and the editor state kept; but an
error inside the unconditionally chained `saveReplacementDraft` is caught and
alerted within it and does NOT abort finalize: both status updates are still
issued afterwards. -/
theorem finalize_abort_policy (o n owner nowIso : String) (l : ReplaceLine)
    (ls : List ReplaceLine) (reason m : String) (rest : Sched)
    (hr : ¬ (jsTrim reason).length < 3) :
    (runFinalizeReplacement
        { replaceOldId := some o, replaceNewId := some n,
          replaceLines := l :: ls, voidReason := reason }
        true (some owner) nowIso (none :: none :: none :: some m :: rest) =
      { writes := [BWrite.deleteLines n, BWrite.insertLines (draftPayload n (l :: ls)),
                   BWrite.updateTotal n (replaceTotal (l :: ls)), BWrite.updatePaid n],
        alerts := ["✅ Draft saved.", m],
        state := { replaceOldId := some o, replaceNewId := some n,
                   replaceLines := l :: ls, voidReason := reason } }) ∧
    (runFinalizeReplacement
        { replaceOldId := some o, replaceNewId := some n,
          replaceLines := l :: ls, voidReason := reason }
        true (some owner) nowIso (none :: none :: none :: none :: some m :: rest) =
      { writes := [BWrite.deleteLines n, BWrite.insertLines (draftPayload n (l :: ls)),
                   BWrite.updateTotal n (replaceTotal (l :: ls)), BWrite.updatePaid n,
                   BWrite.updateVoided o nowIso owner (jsTrim reason) n],
        alerts := ["✅ Draft saved.", m],
        state := { replaceOldId := some o, replaceNewId := some n,
                   replaceLines := l :: ls, voidReason := reason } }) ∧
    (runFinalizeReplacement
        { replaceOldId := some o, replaceNewId := some n,
          replaceLines := l :: ls, voidReason := reason }
        true (some owner) nowIso (some m :: none :: none :: rest) =
      { writes := [BWrite.deleteLines n, BWrite.updatePaid n,
                   BWrite.updateVoided o nowIso owner (jsTrim reason) n],
        alerts := [m, "✅ Replacement finalized."],
        state := resetEditor }) := by
  refine ⟨?_, ?_, ?_⟩ <;>
    simp [runFinalizeReplacement, runSaveReplacementDraft, hr, draftPayload]

/-- Witness for `finalize_abort_policy` at concrete inputs. -/
theorem finalize_abort_policy_witness :
    (¬ (jsTrim "wrong item").length < 3) ∧
    runFinalizeReplacement
        { replaceOldId := some "o1", replaceNewId := some "n1",
          replaceLines := [{ id := "x", menu_item_id := "x", name := "X",
                             unit_price := 45, qty := 1 }],
          voidReason := "wrong item" }
        true (some "u1") "T" (none :: none :: none :: some "paid update failed" :: []) =
      { writes := [BWrite.deleteLines "n1",
                   BWrite.insertLines (draftPayload "n1"
                     [{ id := "x", menu_item_id := "x", name := "X",
                        unit_price := 45, qty := 1 }]),
                   BWrite.updateTotal "n1" (replaceTotal
                     [{ id := "x", menu_item_id := "x", name := "X",
                        unit_price := 45, qty := 1 }]),
                   BWrite.updatePaid "n1"],
        alerts := ["✅ Draft saved.", "paid update failed"],
        state := { replaceOldId := some "o1", replaceNewId := some "n1",
                   replaceLines := [{ id := "x", menu_item_id := "x", name := "X",
                                      unit_price := 45, qty := 1 }],
                   voidReason := "wrong item" } } := by
  refine ⟨by decide, ?_⟩
  exact (finalize_abort_policy "o1" "n1" "u1" "T"
    { id := "x", menu_item_id := "x", name := "X", unit_price := 45, qty := 1 }
    [] "wrong item" "paid update failed" [] (by decide)).1

/-! ## Time-range utility (`phDateRangeToUtcIso`, owner/page.tsx)

The proleptic Gregorian calendar is embedded with structural recursion so that
every definition evaluates inside the kernel.  `Date.UTC(y, m, d)` is modelled
for calendar-valid arguments, including its two-digit-year rule (years 0–99
denote 1900–1999). -/

/-- Gregorian leap-year test. -/
def isLeapYear (y : ℕ) : Bool :=
  (y % 4 == 0 && y % 100 != 0) || y % 400 == 0

/-- Number of days in month `m` (1–12) of a (non-)leap year. -/
def daysInMonth (leap : Bool) (m : ℕ) : ℕ :=
  if m = 2 then (if leap then 29 else 28)
  else if m = 4 ∨ m = 6 ∨ m = 9 ∨ m = 11 then 30
  else 31

/-- Days in the months strictly before month `m` (1–12). -/
def daysBeforeMonth (leap : Bool) : ℕ → ℕ
  | 0 => 0
  | 1 => 0
  | m + 1 => daysBeforeMonth leap m + daysInMonth leap m

/-- Count of multiples of `n` among `0, …, y - 1`, i.e. `⌈y / n⌉`. -/
def ceilCount (y n : ℕ) : ℕ := (y + n - 1) / n

/-- Days in the years strictly before year `y` (counting from year 0):
365 per year plus one per leap year among `0, …, y - 1` (closed form, so that
it evaluates fast inside the kernel). -/
def daysBeforeYear (y : ℕ) : ℕ :=
  365 * y + ceilCount y 4 - ceilCount y 100 + ceilCount y 400

set_option maxHeartbeats 1000000 in
/-- One-year step of `daysBeforeYear`. -/
theorem daysBeforeYear_succ (y : ℕ) :
    daysBeforeYear (y + 1) = daysBeforeYear y + (if isLeapYear y then 366 else 365) := by
  have hleap : isLeapYear y = true ↔ (y % 4 = 0 ∧ y % 100 ≠ 0) ∨ y % 400 = 0 := by
    unfold isLeapYear
    simp [Bool.or_eq_true, Bool.and_eq_true, beq_iff_eq, bne_iff_ne]
  by_cases h : isLeapYear y = true
  · rw [if_pos h]
    have hc := hleap.mp h
    unfold daysBeforeYear ceilCount
    omega
  · rw [if_neg h]
    have hc : ¬ ((y % 4 = 0 ∧ y % 100 ≠ 0) ∨ y % 400 = 0) := fun hc => h (hleap.mpr hc)
    unfold daysBeforeYear ceilCount
    omega

/-- Day number of the proleptic Gregorian date y-m-d (0000-01-01 = day 0),
for calendar-valid `m`, `d`. -/
def civilDays (y m d : ℕ) : ℕ :=
  daysBeforeYear y + daysBeforeMonth (isLeapYear y) m + (d - 1)

/-- `m` and `d` form a calendar date of year `y`. -/
def validDate (y m d : ℕ) : Prop :=
  1 ≤ m ∧ m ≤ 12 ∧ 1 ≤ d ∧ d ≤ daysInMonth (isLeapYear y) m

instance (y m d : ℕ) : Decidable (validDate y m d) := by
  unfold validDate; infer_instance

/-- JS `Date.UTC`'s two-digit-year rule: a year argument 0–99 denotes 1900–1999. -/
def jsUTCYear (y : ℕ) : ℕ := if y ≤ 99 then 1900 + y else y

/-- JS `Date.UTC(y, m - 1, d)` (midnight) in ms since the Unix epoch, for
calendar-valid `(m, d)` and 1-based month `m`. -/
def dateUTCms (y m d : ℕ) : ℤ :=
  ((civilDays (jsUTCYear y) m d : ℤ) - (civilDays 1970 1 1 : ℤ)) * 86400000

/-- Structural helper for `jsSplitDash`. -/
def splitDashAux : List Char → List Char → List String
  | [], acc => [String.mk acc.reverse]
  | c :: cs, acc =>
    if c = '-' then String.mk acc.reverse :: splitDashAux cs []
    else splitDashAux cs (c :: acc)

/-- JS `s.split("-")`, structural so that it evaluates inside the kernel. -/
def jsSplitDash (s : String) : List String := splitDashAux s.data []

/-- Structural helper for `parseNat`. -/
def parseNatAux : List Char → ℕ → Option ℕ
  | [], acc => some acc
  | c :: cs, acc =>
    if c.isDigit then parseNatAux cs (acc * 10 + (c.toNat - 48)) else none

/-- JS `Number(s)` on a non-empty all-digit string; a string JS would turn into
`NaN` (or the empty string) is modelled as `none`. -/
def parseNat (s : String) : Option ℕ :=
  match s.data with
  | [] => none
  | cs => parseNatAux cs 0

/-- `phDateRangeToUtcIso(startDate, endDateInclusive)` (owner/page.tsx):
splits both YYYY-MM-DD strings on "-", builds the PH-midnight instants with
`Date.UTC` (two-digit-year rule included), adds 24h to the inclusive end, and
shifts both instants by -8h (PH = UTC+8).  The final `toISOString()` calls
render the instants; the model returns the instants themselves (ms since
epoch).  Input that JS would parse to `NaN` is modelled as `none`. -/
def phDateRangeToUtcIso (startDate endDateInclusive : String) : Option (ℤ × ℤ) :=
  match (jsSplitDash startDate).map parseNat, (jsSplitDash endDateInclusive).map parseNat with
  | [some sy, some sm, some sd], [some ey, some em, some ed] =>
    let offsetMin : ℤ := 8 * 60
    let startPhMs := dateUTCms sy sm sd
    let endPhMsInclusive := dateUTCms ey em ed
    let endPhExclusiveMs := endPhMsInclusive + 24 * 60 * 60 * 1000
    some (startPhMs - offsetMin * 60 * 1000, endPhExclusiveMs - offsetMin * 60 * 1000)
  | _, _ => none

/-- Modelled from the spec: the UTC instant (ms since epoch) of local (UTC+8)
midnight of the proleptic Gregorian calendar date y-m-d — the bound the claim
says `phDateRangeToUtcIso` must produce, with no two-digit-year rule. -/
def specLocalMidnightUtcMs (y m d : ℕ) : ℤ :=
  ((civilDays y m d : ℤ) - (civilDays 1970 1 1 : ℤ)) * 86400000 - 8 * 60 * 60 * 1000

/-- The calendar day after y-m-d, by standard calendar normalization. -/
def nextDay (y m d : ℕ) : ℕ × ℕ × ℕ :=
  if d < daysInMonth (isLeapYear y) m then (y, m, d + 1)
  else if m < 12 then (y, m + 1, 1)
  else (y + 1, 1, 1)

/-- One-month step of `daysBeforeMonth`. -/
theorem daysBeforeMonth_succ (leap : Bool) (m : ℕ) (hm : 1 ≤ m) :
    daysBeforeMonth leap (m + 1) = daysBeforeMonth leap m + daysInMonth leap m := by
  match m, hm with
  | m + 1, _ => rfl

/-- The day number of the next calendar day is one more. -/
theorem civilDays_nextDay (y m d : ℕ) (h : validDate y m d) :
    civilDays (nextDay y m d).1 (nextDay y m d).2.1 (nextDay y m d).2.2 =
      civilDays y m d + 1 := by
  obtain ⟨h1, h2, h3, h4⟩ := h
  unfold nextDay
  by_cases hd : d < daysInMonth (isLeapYear y) m
  · simp only [hd, if_true]
    unfold civilDays
    omega
  · have hd' : d = daysInMonth (isLeapYear y) m := by omega
    simp only [hd, if_false]
    by_cases hm : m < 12
    · simp only [hm, if_true]
      unfold civilDays
      have hstep := daysBeforeMonth_succ (isLeapYear y) m h1
      omega
    · have hm' : m = 12 := by omega
      subst hm'
      have hd31 : d = 31 := by
        rw [hd']
        unfold daysInMonth
        norm_num
      simp only [hm, if_false]
      subst hd31
      unfold civilDays
      have h12 : ∀ leap : Bool, daysBeforeMonth leap 12 = if leap then 335 else 334 := by
        intro leap
        cases leap <;> rfl
      have hy := daysBeforeYear_succ y
      have hone : ∀ leap : Bool, daysBeforeMonth leap 1 = 0 := by
        intro leap; rfl
      rw [hy, h12, hone]
      cases isLeapYear y <;> simp

/-- C5 counterexample: on the YYYY-MM-DD pair s = e = "0099-01-01" (a valid
inclusive calendar-date pair with s ≤ e), `Date.UTC`'s two-digit-year rule makes
`phDateRangeToUtcIso` return the bound for 1999-01-01, not the UTC instant of
local midnight of 0099-01-01, refuting the claim for that input. -/
theorem phDateRange_two_digit_year_counterexample :
    (phDateRangeToUtcIso "0099-01-01" "0099-01-01").map Prod.fst =
      some (specLocalMidnightUtcMs 1999 1 1) ∧
    specLocalMidnightUtcMs 1999 1 1 ≠ specLocalMidnightUtcMs 99 1 1 := by
  constructor
  · rfl
  · decide

/-- C5 (amended): for every inclusive calendar-date pair (s, e) with s ≤ e given
as YYYY-MM-DD strings whose years are at least 100, `phDateRangeToUtcIso`
returns `startUtc` equal to the UTC instant of local (UTC+8) midnight of s and
`endUtc` equal to the UTC instant of local midnight of the calendar day after e
(month/year rollover by calendar normalization), with `startUtc < endUtc`, so
the pair describes the non-empty half-open interval [startUtc, endUtc).  (For
years 0–99 `Date.UTC` applies its two-digit-year rule and the bounds land in
1900–1999 instead.) -/
theorem phDateRangeToUtcIso_correct (startDate endDateInclusive : String)
    (sy sm sd ey em ed : ℕ)
    (hs : (jsSplitDash startDate).map parseNat = [some sy, some sm, some sd])
    (he : (jsSplitDash endDateInclusive).map parseNat = [some ey, some em, some ed])
    (hsy : 100 ≤ sy) (hey : 100 ≤ ey)
    (hvs : validDate sy sm sd) (hve : validDate ey em ed)
    (hle : civilDays sy sm sd ≤ civilDays ey em ed) :
    phDateRangeToUtcIso startDate endDateInclusive =
      some (specLocalMidnightUtcMs sy sm sd,
            specLocalMidnightUtcMs (nextDay ey em ed).1 (nextDay ey em ed).2.1
              (nextDay ey em ed).2.2) ∧
    specLocalMidnightUtcMs sy sm sd <
      specLocalMidnightUtcMs (nextDay ey em ed).1 (nextDay ey em ed).2.1
        (nextDay ey em ed).2.2 := by
  have hnext := civilDays_nextDay ey em ed hve
  have hnextZ : (civilDays (nextDay ey em ed).1 (nextDay ey em ed).2.1
      (nextDay ey em ed).2.2 : ℤ) = (civilDays ey em ed : ℤ) + 1 := by
    exact_mod_cast congrArg (Nat.cast (R := ℤ)) hnext
  have hjs : jsUTCYear sy = sy := by unfold jsUTCYear; rw [if_neg (by omega)]
  have hje : jsUTCYear ey = ey := by unfold jsUTCYear; rw [if_neg (by omega)]
  have hds : dateUTCms sy sm sd =
      ((civilDays sy sm sd : ℤ) - (civilDays 1970 1 1 : ℤ)) * 86400000 := by
    unfold dateUTCms; rw [hjs]
  have hde : dateUTCms ey em ed =
      ((civilDays ey em ed : ℤ) - (civilDays 1970 1 1 : ℤ)) * 86400000 := by
    unfold dateUTCms; rw [hje]
  constructor
  · unfold phDateRangeToUtcIso
    rw [hs, he]
    show some (dateUTCms sy sm sd - 8 * 60 * 60 * 1000,
        dateUTCms ey em ed + 24 * 60 * 60 * 1000 - 8 * 60 * 60 * 1000) = _
    rw [hds, hde]
    unfold specLocalMidnightUtcMs
    rw [hnextZ]
    refine congrArg some (Prod.ext ?_ ?_)
    · norm_num
    · ring
  · unfold specLocalMidnightUtcMs
    rw [hnextZ]
    have hleZ : (civilDays sy sm sd : ℤ) ≤ (civilDays ey em ed : ℤ) := by exact_mod_cast hle
    omega

/-- Witness for `phDateRangeToUtcIso_correct` across the 2024 leap-day
month rollover. -/
theorem phDateRangeToUtcIso_correct_witness :
    phDateRangeToUtcIso "2024-02-28" "2024-02-29" =
      some (specLocalMidnightUtcMs 2024 2 28, specLocalMidnightUtcMs 2024 3 1) := by
  have h := (phDateRangeToUtcIso_correct "2024-02-28" "2024-02-29" 2024 2 28 2024 2 29
    (by rfl) (by rfl) (by norm_num) (by norm_num)
    (by decide) (by decide) (by decide)).1
  exact h

/-! ## Cashier order-entry flow (cashier page, `placeOrder`) -/

/-- A cart line (`CartLine` in the TS source). -/
structure CartLine where
  id : String
  name : String
  price : ℚ
  qty : ℤ
deriving Repr, DecidableEq

/-- The cart total `total = cart.reduce((sum, l) => sum + l.price * l.qty, 0)`. -/
def cartTotal (cart : List CartLine) : ℚ :=
  cart.foldl (fun sum l => sum + l.price * (l.qty : ℚ)) 0

/-- The `orders` header literal inserted by `placeOrder`. -/
structure OrderInsert where
  branch_id : String
  created_by : String
  payment_type : String
  status : String
  total_amount : ℚ
deriving Repr, DecidableEq

/-- The success-path payloads of `placeOrder` (cashier page): the order header
(status NEW, `total_amount = Number(total.toFixed(2))`) and the `order_lines`
rows for the backend-generated order id `oid`, with `unit_price` and
`line_total` rounded to 2 decimals from the cart snapshot. -/
def placeOrderPayload (branchId userId payment : String) (cart : List CartLine)
    (oid : String) : OrderInsert × List DbLine :=
  ({ branch_id := branchId, created_by := userId, payment_type := payment,
     status := "NEW", total_amount := round2 (cartTotal cart) },
   cart.map fun l =>
     { order_id := oid, menu_item_id := l.id, qty := l.qty,
       unit_price := round2 l.price, line_total := round2 (l.price * (l.qty : ℚ)) })

/-- The backend write requests issued by `placeOrder`. -/
inductive CashierWrite where
  | insertOrder (row : OrderInsert)
  | insertLines (rows : List DbLine)
deriving Repr, DecidableEq

/-- Execution of `placeOrder` (cashier page): an empty cart returns silently
(no alert); a missing branch alerts and returns; a missing session user throws
inside the `try`, alerted by the catch with the "Failed to save order: "
prefix; then the header insert and the lines insert are issued in order,
aborting with an alert at the first backend error (a failed lines insert
leaves the already-inserted header orphaned); on success alerts and clears the
cart.  Returns (writes issued, alerts shown, resulting cart). -/
def runPlaceOrder (cart : List CartLine) (branchId : Option String)
    (user : Option String) (payment : String) (oid : String) (sched : Sched) :
    List CashierWrite × List String × List CartLine :=
  if cart.length = 0 then ([], [], cart)
  else
    match branchId with
    | none => ([], ["No branch assigned to this cashier."], cart)
    | some bid =>
      match user with
      | none => ([], ["Failed to save order: Login required"], cart)
      | some uid =>
        let (hdr, lns) := placeOrderPayload bid uid payment cart oid
        match sched.headD none, sched.tail with
        | some msg, _ =>
          ([CashierWrite.insertOrder hdr], ["Failed to save order: " ++ msg], cart)
        | none, s1 =>
          match s1.headD none, s1.tail with
          | some msg, _ =>
            ([CashierWrite.insertOrder hdr, CashierWrite.insertLines lns],
             ["Failed to save order: " ++ msg], cart)
          | none, _ =>
            ([CashierWrite.insertOrder hdr, CashierWrite.insertLines lns],
             ["Order saved ✅"], [])

/-- C7 counterexample: `placeOrder` invoked with an empty cart (and a resolved
branch) issues zero backend writes but also shows NO message at all — the guard
`if (cart.length === 0) return;` is a silent no-op, refuting the claim that the
failure is reported to the user as a `ValidationError`. -/
theorem placeOrder_empty_cart_silent_counterexample :
    runPlaceOrder [] (some "b1") (some "u1") "CASH" "o1" [] = ([], [], []) := by
  rfl

/-- C7 (amended): `placeOrder` with an empty cart, or with no resolved branch,
performs no backend insert (neither header nor lines) and leaves the cart
unchanged; the missing-branch case (with a non-empty cart) alerts the user,
but the empty-cart case returns silently with no user-visible report. -/
theorem placeOrder_validation (cart : List CartLine) (branchId : Option String)
    (user : Option String) (payment oid : String) (sched : Sched)
    (h : cart = [] ∨ branchId = none) :
    (runPlaceOrder cart branchId user payment oid sched).1 = [] ∧
    (runPlaceOrder cart branchId user payment oid sched).2.2 = cart ∧
    (cart = [] → (runPlaceOrder cart branchId user payment oid sched).2.1 = []) ∧
    (cart ≠ [] → branchId = none →
      (runPlaceOrder cart branchId user payment oid sched).2.1 =
        ["No branch assigned to this cashier."]) := by
  rcases h with h | h
  · subst h
    refine ⟨rfl, rfl, fun _ => rfl, fun hc _ => absurd rfl hc⟩
  · subst h
    cases cart with
    | nil => exact ⟨rfl, rfl, fun _ => rfl, fun hc _ => absurd rfl hc⟩
    | cons a as =>
      refine ⟨rfl, rfl, fun hc => absurd hc (by simp), fun _ _ => rfl⟩

/-- Witness for `placeOrder_validation` at a concrete missing-branch call. -/
theorem placeOrder_validation_witness :
    (runPlaceOrder [{ id := "a", name := "A", price := 50, qty := 2 }]
        none (some "u1") "CASH" "o1" []).1 = [] ∧
    (runPlaceOrder [{ id := "a", name := "A", price := 50, qty := 2 }]
        none (some "u1") "CASH" "o1" []).2.1 =
      ["No branch assigned to this cashier."] := by
  have h := placeOrder_validation [{ id := "a", name := "A", price := 50, qty := 2 }]
    none (some "u1") "CASH" "o1" [] (Or.inr rfl)
  exact ⟨h.1, h.2.2.2 (by simp) rfl⟩

/-- Sum of a mapped rational over a left fold. -/
theorem foldl_add_eq_sum {α : Type} (f : α → ℚ) (xs : List α) (init : ℚ) :
    xs.foldl (fun s x => s + f x) init = init + (xs.map f).sum := by
  induction xs generalizing init with
  | nil => simp
  | cons a as ih =>
    simp only [List.foldl_cons, List.map_cons, List.sum_cons]
    rw [ih]
    ring

/-- C6 counterexample: for the submitted cart [A at 1/250 ×1, B at 1/250 ×1]
(two sub-cent-priced lines), the persisted header total is
round2(0.008) = 0.01, while both persisted `line_total`s are round2(0.004) =
0.00, so the header total does NOT equal the rounded sum of the persisted
lines' `line_total` values (0.01 ≠ 0.00), refuting the claim's "in particular"
clause. -/
theorem placeOrder_total_vs_rounded_lines_counterexample :
    (placeOrderPayload "b1" "u1" "CASH"
      [{ id := "a", name := "A", price := 1/250, qty := 1 },
       { id := "b", name := "B", price := 1/250, qty := 1 }] "o1").1.total_amount ≠
    round2 (((placeOrderPayload "b1" "u1" "CASH"
      [{ id := "a", name := "A", price := 1/250, qty := 1 },
       { id := "b", name := "B", price := 1/250, qty := 1 }] "o1").2.map
        fun r => r.line_total).sum) := by
  simp only [placeOrderPayload, cartTotal, List.map_cons, List.map_nil,
    List.sum_cons, List.sum_nil, List.foldl_cons, List.foldl_nil]
  norm_num [round2]

/-- C6 (amended): for any order submitted by `placeOrder`, the persisted
`total_amount` equals the sum of cart price × qty over the submitted cart
lines, rounded to 2 decimals; each persisted line carries
`unit_price = round2(price)` and `line_total = round2(price × qty)`; and
whenever every cart line's price × qty is already an exact 2-decimal amount,
the persisted header total also equals the rounded sum of the persisted
lines' `line_total` values (for sub-cent amounts the two can differ). -/
theorem placeOrder_total_correct (branchId userId payment oid : String)
    (cart : List CartLine) :
    (placeOrderPayload branchId userId payment cart oid).1.total_amount =
      round2 ((cart.map fun l => l.price * (l.qty : ℚ)).sum) ∧
    ((placeOrderPayload branchId userId payment cart oid).2.map
        fun r => (r.menu_item_id, r.qty, r.unit_price, r.line_total)) =
      (cart.map fun l => (l.id, l.qty, round2 l.price, round2 (l.price * (l.qty : ℚ)))) ∧
    ((∀ l ∈ cart, round2 (l.price * (l.qty : ℚ)) = l.price * (l.qty : ℚ)) →
      (placeOrderPayload branchId userId payment cart oid).1.total_amount =
        round2 (((placeOrderPayload branchId userId payment cart oid).2.map
          fun r => r.line_total).sum)) := by
  refine ⟨?_, ?_, ?_⟩
  · show round2 (cartTotal cart) = _
    unfold cartTotal
    rw [foldl_add_eq_sum (fun l => l.price * (l.qty : ℚ)) cart 0, zero_add]
  · simp [placeOrderPayload]
  · intro h
    show round2 (cartTotal cart) = _
    have hmap : ((placeOrderPayload branchId userId payment cart oid).2.map
        fun r => r.line_total) = cart.map fun l => round2 (l.price * (l.qty : ℚ)) := by
      simp [placeOrderPayload]
    rw [hmap]
    have hsum : (cart.map fun l => round2 (l.price * (l.qty : ℚ))).sum =
        (cart.map fun l => l.price * (l.qty : ℚ)).sum := by
      refine congrArg List.sum ?_
      exact List.map_congr_left h
    rw [hsum]
    unfold cartTotal
    rw [foldl_add_eq_sum (fun l => l.price * (l.qty : ℚ)) cart 0, zero_add]

/-- Witness for `placeOrder_total_correct` on the spec's example cart
(A at 50 ×2, B at 20 ×1): header total 120.00, which also equals the rounded
sum of the persisted line totals. -/
theorem placeOrder_total_correct_witness :
    (placeOrderPayload "b1" "u1" "CASH"
      [{ id := "a", name := "A", price := 50, qty := 2 },
       { id := "b", name := "B", price := 20, qty := 1 }] "o1").1.total_amount = 120 ∧
    (placeOrderPayload "b1" "u1" "CASH"
      [{ id := "a", name := "A", price := 50, qty := 2 },
       { id := "b", name := "B", price := 20, qty := 1 }] "o1").1.total_amount =
      round2 (((placeOrderPayload "b1" "u1" "CASH"
        [{ id := "a", name := "A", price := 50, qty := 2 },
         { id := "b", name := "B", price := 20, qty := 1 }] "o1").2.map
          fun r => r.line_total).sum) := by
  have h := placeOrder_total_correct "b1" "u1" "CASH" "o1"
    [{ id := "a", name := "A", price := 50, qty := 2 },
     { id := "b", name := "B", price := 20, qty := 1 }]
  refine ⟨?_, h.2.2 ?_⟩
  · show round2 (cartTotal _) = 120
    simp only [cartTotal, List.foldl_cons, List.foldl_nil]
    norm_num [round2]
  · intro l hl
    fin_cases hl <;> norm_num [round2]

/-! ## Admin password-reset endpoint (`POST`, app/api route) -/

/-- JS truthiness of an optional string: `undefined`, `null` and `""` are
falsy. -/
def jsTruthy : Option String → Bool
  | none => false
  | some s => s != ""

/-- JS `s.toLowerCase()` (structural, ASCII as used here). -/
def jsToLower (s : String) : String := String.mk (s.data.map Char.toLower)

/-- JS `s.startsWith(p)` (structural). -/
def jsStartsWith (s p : String) : Bool := p.data.isPrefixOf s.data

/-- JS `s.slice(n)` for a non-negative `n` (structural). -/
def jsDrop (s : String) (n : ℕ) : String := String.mk (s.data.drop n)

/-- `getBearer(req)`: read the `authorization` header (empty when absent); if
it does not start with "bearer " case-insensitively return `null`, else return
the rest of the header, trimmed. -/
def getBearer (authHeader : Option String) : Option String :=
  let h := authHeader.getD ""
  if jsStartsWith (jsToLower h) "bearer " then some (jsTrim (jsDrop h 7)) else none

/-- The request visible to the handler: `authorization` header and the parsed
JSON body's `mode` and `newPassword` fields (a field JS would see as absent or
empty is `none`/`some ""`). -/
structure AdminReq where
  authHeader : Option String
  mode : Option String
  newPassword : Option String
deriving Repr, DecidableEq

/-- Environment and backend behavior visible to the handler:
the two public env vars, the session user the bearer token denotes (if valid),
the `profiles.role` lookup (`maybeSingle`: error message, or an optional role),
the `app_settings` `cashier_user_id` lookup, and the outcome of
`auth.admin.updateUserById` (`some msg` = failure). -/
structure AdminEnv where
  url : Option String
  anon : Option String
  sessionUser : Option String
  profileLookup : Except String (Option String)
  settingsLookup : Except String (Option String)
  updateError : Option String
deriving Repr

/-- An HTTP response: status code, and whether the body is the success body
(`ok: true`) rather than an error body. -/
structure AdminRes where
  status : ℕ
  ok : Bool
deriving Repr, DecidableEq

/-- The `POST` handler of the admin password-reset route, guard for guard:
401 missing/empty token; 500 missing public env vars; 401 invalid session;
500 profile-lookup error; 403 no profile row or role not owner; 400 missing
`mode`/`newPassword`; 400 password shorter than 8; for `mode = "cashier"`,
500 settings-lookup error or unset `cashier_user_id`; 400 failed credential
update; 200 with `ok: true` on success.  (A body that fails to parse as JSON
throws inside the `try` and yields 500; body fields are modelled as already
parsed.) -/
def runPOST (req : AdminReq) (env : AdminEnv) : AdminRes :=
  let token := getBearer req.authHeader
  if !(jsTruthy token) then { status := 401, ok := false }
  else if !(jsTruthy env.url) || !(jsTruthy env.anon) then { status := 500, ok := false }
  else
    match env.sessionUser with
    | none => { status := 401, ok := false }
    | some _ =>
      match env.profileLookup with
      | Except.error _ => { status := 500, ok := false }
      | Except.ok prof =>
        match prof with
        | none => { status := 403, ok := false }
        | some role =>
          if role ≠ "owner" then { status := 403, ok := false }
          else if !(jsTruthy req.mode) || !(jsTruthy req.newPassword) then
            { status := 400, ok := false }
          else if (req.newPassword.getD "").length < 8 then
            { status := 400, ok := false }
          else if req.mode = some "cashier" then
            match env.settingsLookup with
            | Except.error _ => { status := 500, ok := false }
            | Except.ok v =>
              if !(jsTruthy v) then { status := 500, ok := false }
              else
                match env.updateError with
                | some _ => { status := 400, ok := false }
                | none => { status := 200, ok := true }
          else
            match env.updateError with
            | some _ => { status := 400, ok := false }
            | none => { status := 200, ok := true }

/-- The request is authenticated and authorized as owner: usable bearer token,
both env vars present, a valid session, and an owner profile row. -/
def authedOwner (req : AdminReq) (env : AdminEnv) : Prop :=
  jsTruthy (getBearer req.authHeader) = true ∧
  jsTruthy env.url = true ∧ jsTruthy env.anon = true ∧
  (∃ callerId, env.sessionUser = some callerId) ∧
  env.profileLookup = Except.ok (some "owner")

/-- C9: the password-reset POST handler responds 401 when the bearer token is
missing/unusable or the session it denotes is invalid, 500 when a public env
var is missing or the profile lookup errs, 403 when the caller has no profile
row or a non-owner role, 400 when `mode` or `newPassword` is missing, when the
password is shorter than 8, or when the credential update fails, 500 when the
`cashier_user_id` setting lookup errs or the setting is unset (cashier mode),
and 200 with body `ok: true` on success (each case taken with the handler's
guard order: earlier guards passing). -/
theorem post_status_cases (req : AdminReq) (env : AdminEnv) :
    (jsTruthy (getBearer req.authHeader) = false → runPOST req env = { status := 401, ok := false }) ∧
    (jsTruthy (getBearer req.authHeader) = true →
      (jsTruthy env.url = false ∨ jsTruthy env.anon = false) →
      runPOST req env = { status := 500, ok := false }) ∧
    (jsTruthy (getBearer req.authHeader) = true → jsTruthy env.url = true →
      jsTruthy env.anon = true → env.sessionUser = none →
      runPOST req env = { status := 401, ok := false }) ∧
    (∀ c msg, jsTruthy (getBearer req.authHeader) = true → jsTruthy env.url = true →
      jsTruthy env.anon = true → env.sessionUser = some c →
      env.profileLookup = Except.error msg →
      runPOST req env = { status := 500, ok := false }) ∧
    (∀ c prof, jsTruthy (getBearer req.authHeader) = true → jsTruthy env.url = true →
      jsTruthy env.anon = true → env.sessionUser = some c →
      env.profileLookup = Except.ok prof →
      (prof = none ∨ ∃ role, prof = some role ∧ role ≠ "owner") →
      runPOST req env = { status := 403, ok := false }) ∧
    (authedOwner req env →
      (jsTruthy req.mode = false ∨ jsTruthy req.newPassword = false) →
      runPOST req env = { status := 400, ok := false }) ∧
    (authedOwner req env → jsTruthy req.mode = true → jsTruthy req.newPassword = true →
      (req.newPassword.getD "").length < 8 →
      runPOST req env = { status := 400, ok := false }) ∧
    (authedOwner req env → jsTruthy req.mode = true → jsTruthy req.newPassword = true →
      ¬ (req.newPassword.getD "").length < 8 → req.mode = some "cashier" →
      ((∃ msg, env.settingsLookup = Except.error msg) ∨
       (∃ v, env.settingsLookup = Except.ok v ∧ jsTruthy v = false)) →
      runPOST req env = { status := 500, ok := false }) ∧
    (authedOwner req env → jsTruthy req.mode = true → jsTruthy req.newPassword = true →
      ¬ (req.newPassword.getD "").length < 8 →
      (req.mode = some "cashier" →
        ∃ v, env.settingsLookup = Except.ok v ∧ jsTruthy v = true) →
      (∀ msg, env.updateError = some msg →
        runPOST req env = { status := 400, ok := false }) ∧
      (env.updateError = none →
        runPOST req env = { status := 200, ok := true })) := by
  refine ⟨?_, ?_, ?_, ?_, ?_, ?_, ?_, ?_, ?_⟩
  · intro h
    simp [runPOST, h]
  · intro h hu
    rcases hu with hu | hu <;> simp [runPOST, h, hu]
  · intro h hu ha hsess
    simp [runPOST, h, hu, ha, hsess]
  · intro c msg h hu ha hsess hprof
    simp [runPOST, h, hu, ha, hsess, hprof]
  · intro c prof h hu ha hsess hprof hrole
    rcases hrole with rfl | ⟨role, rfl, hne⟩
    · simp [runPOST, h, hu, ha, hsess, hprof]
    · simp [runPOST, h, hu, ha, hsess, hprof, hne]
  · rintro ⟨h, hu, ha, ⟨c, hsess⟩, hprof⟩ hmode
    rcases hmode with hm | hm <;> simp [runPOST, h, hu, ha, hsess, hprof, hm]
  · rintro ⟨h, hu, ha, ⟨c, hsess⟩, hprof⟩ hm hp hlen
    simp [runPOST, h, hu, ha, hsess, hprof, hm, hp, hlen]
  · rintro ⟨h, hu, ha, ⟨c, hsess⟩, hprof⟩ hm hp hlen hcash hset
    have hct : jsTruthy (some "cashier") = true := by decide
    rcases hset with ⟨msg, hset⟩ | ⟨v, hset, hv⟩
    · simp [runPOST, h, hu, ha, hsess, hprof, hm, hp, hlen, hcash, hset, hct]
    · simp [runPOST, h, hu, ha, hsess, hprof, hm, hp, hlen, hcash, hset, hv, hct]
  · rintro ⟨h, hu, ha, ⟨c, hsess⟩, hprof⟩ hm hp hlen hcash
    have hct : jsTruthy (some "cashier") = true := by decide
    constructor
    · intro msg hupd
      by_cases hc : req.mode = some "cashier"
      · obtain ⟨v, hset, hv⟩ := hcash hc
        simp [runPOST, h, hu, ha, hsess, hprof, hm, hp, hlen, hc, hset, hv, hupd, hct]
      · simp [runPOST, h, hu, ha, hsess, hprof, hm, hp, hlen, hc, hupd]
    · intro hupd
      by_cases hc : req.mode = some "cashier"
      · obtain ⟨v, hset, hv⟩ := hcash hc
        simp [runPOST, h, hu, ha, hsess, hprof, hm, hp, hlen, hc, hset, hv, hupd, hct]
      · simp [runPOST, h, hu, ha, hsess, hprof, hm, hp, hlen, hc, hupd]

/-- Witness for `post_status_cases`: a complete successful owner-mode reset
returns 200 with `ok: true`, and the same request without its bearer token
returns 401. -/
theorem post_status_cases_witness :
    runPOST
      { authHeader := some "Bearer tok123", mode := some "owner",
        newPassword := some "password1" }
      { url := some "https://x.example", anon := some "anonkey",
        sessionUser := some "caller-1",
        profileLookup := Except.ok (some "owner"),
        settingsLookup := Except.ok (some "cashier-1"),
        updateError := none } = { status := 200, ok := true } ∧
    runPOST
      { authHeader := none, mode := some "owner", newPassword := some "password1" }
      { url := some "https://x.example", anon := some "anonkey",
        sessionUser := some "caller-1",
        profileLookup := Except.ok (some "owner"),
        settingsLookup := Except.ok (some "cashier-1"),
        updateError := none } = { status := 401, ok := false } := by
  constructor
  · exact ((post_status_cases
      { authHeader := some "Bearer tok123", mode := some "owner",
        newPassword := some "password1" }
      { url := some "https://x.example", anon := some "anonkey",
        sessionUser := some "caller-1",
        profileLookup := Except.ok (some "owner"),
        settingsLookup := Except.ok (some "cashier-1"),
        updateError := none }).2.2.2.2.2.2.2.2
      ⟨by decide, by decide, by decide, ⟨"caller-1", rfl⟩, rfl⟩
      (by decide) (by decide) (by decide)
      (fun hc => absurd hc (by decide))).2 rfl
  · exact (post_status_cases
      { authHeader := none, mode := some "owner", newPassword := some "password1" }
      { url := some "https://x.example", anon := some "anonkey",
        sessionUser := some "caller-1",
        profileLookup := Except.ok (some "owner"),
        settingsLookup := Except.ok (some "cashier-1"),
        updateError := none }).1 (by decide)

/-! ## CSV export (`exportCsv`, owner/page.tsx) -/

/-- An `orders` row as loaded for the dashboard range (the `Order` TS type). -/
structure Order where
  id : String
  branch_id : String
  created_at : String
  payment_type : String
  total_amount : ℚ
  status : Option String
deriving Repr, DecidableEq

/-- An `order_lines` row as loaded for the dashboard range (the `Line` TS
type), with the hydrated `menu_items?.name`. -/
structure Line where
  order_id : String
  menu_item_id : String
  qty : ℤ
  line_total : ℚ
  item_name : Option String
deriving Repr, DecidableEq

/-- `escapeCsv(v)`: if the value contains a double quote, a comma or a
newline, double every internal quote and wrap the value in quotes; otherwise
return it unchanged.  (`String(v)` replace is modelled per character, which
agrees with a global single-character replace.) -/
def escapeCsv (s : String) : String :=
  if s.data.contains '"' || s.data.contains ',' || s.data.contains '\n' then
    "\"" ++ String.mk (s.data.flatMap fun c => if c = '"' then ['"', '"'] else [c]) ++ "\""
  else s

/-- Structural digit rendering of a positive natural (fuel-based so that it
evaluates inside the kernel; the fuel argument bounds the digit count). -/
def natDigitsAux : ℕ → ℕ → List Char
  | 0, _ => []
  | fuel + 1, n =>
    if n = 0 then [] else natDigitsAux fuel (n / 10) ++ [Char.ofNat (48 + n % 10)]

/-- JS `String(n)` for a natural number. -/
def natToString (n : ℕ) : String :=
  if n = 0 then "0" else String.mk (natDigitsAux n n)

/-- JS `String(i)` for an integer (as used for `l.qty`). -/
def intToString (i : ℤ) : String :=
  if i < 0 then "-" ++ natToString i.natAbs else natToString i.natAbs

/-- `Number(q).toFixed(2)` for the non-negative currency amounts this app
renders. -/
def fmt2 (q : ℚ) : String :=
  let c : ℕ := (⌊q * 100 + 1/2⌋).toNat
  natToString (c / 100) ++ "." ++ (if c % 100 < 10 then "0" else "") ++ natToString (c % 100)

/-- The header row of the CSV built by `exportCsv` — exactly these 7 column
names (the literal in the code has no column for the order id). -/
def csvHeader : List String :=
  ["order_created_at", "branch", "payment_type", "order_total", "item_name", "qty", "line_total"]

/-- The data rows `exportCsv` produces for one order: one placeholder row when
the order has no lines in the loaded range, else one row per line; each row is
the 8-element field list the code joins with ",", with the escaped order id
first. -/
def csvRowsForOrder (branchName : String → Option String) (lines : List Line)
    (o : Order) : List (List String) :=
  let branch := (branchName o.branch_id).getD o.branch_id
  let ol := lines.filter fun l => l.order_id = o.id
  if ol.length = 0 then
    [[escapeCsv o.id, escapeCsv o.created_at, escapeCsv branch, escapeCsv o.payment_type,
      escapeCsv (fmt2 o.total_amount), "", "", ""]]
  else
    ol.map fun l =>
      [escapeCsv o.id, escapeCsv o.created_at, escapeCsv branch, escapeCsv o.payment_type,
       escapeCsv (fmt2 o.total_amount), escapeCsv (l.item_name.getD "Unknown"),
       escapeCsv (intToString l.qty), escapeCsv (fmt2 l.line_total)]

/-- All rows of the CSV built by `exportCsv`, each as its field list (the code
joins each with "," and the rows with newlines): the header first, then the
data rows of each order, orders sorted by `created_at` descending (the JS
comparator `(a, b) => a.created_at < b.created_at ? 1 : -1`).  The
`linesByOrder` grouping preserves the loaded line order, which per-order
filtering reproduces. -/
def exportCsvRows (orders : List Order) (lines : List Line)
    (branchName : String → Option String) : List (List String) :=
  csvHeader ::
    ((orders.mergeSort fun a b => !(decide (a.created_at < b.created_at))).flatMap
      (csvRowsForOrder branchName lines))

/-- C10: in the CSV built by `exportCsv`, the header row has exactly the 7
column names `order_created_at, branch, payment_type, order_total, item_name,
qty, line_total`, while every data row — per-line rows and the placeholder row
of a lineless order alike — has exactly 8 fields, the first being the (escaped)
id of one of the exported orders; so every data row has one more field than
the header and each data value sits one column left of the header name that
describes it. -/
theorem exportCsv_header_data_mismatch (orders : List Order) (lines : List Line)
    (branchName : String → Option String) :
    (exportCsvRows orders lines branchName).head? = some csvHeader ∧
    csvHeader.length = 7 ∧
    (∀ row ∈ (exportCsvRows orders lines branchName).tail,
      row.length = 8 ∧ ∃ o ∈ orders, row.head? = some (escapeCsv o.id)) := by
  refine ⟨rfl, rfl, ?_⟩
  intro row hrow
  simp only [exportCsvRows, List.tail_cons, List.mem_flatMap] at hrow
  obtain ⟨o, ho, hro⟩ := hrow
  have ho' : o ∈ orders := List.mem_mergeSort.mp ho
  unfold csvRowsForOrder at hro
  by_cases h : (lines.filter fun l => l.order_id = o.id).length = 0
  · simp only [h, if_true] at hro
    simp only [List.mem_singleton] at hro
    subst hro
    exact ⟨rfl, o, ho', rfl⟩
  · simp only [h, if_false, List.mem_map] at hro
    obtain ⟨l, _, hl⟩ := hro
    subst hl
    exact ⟨rfl, o, ho', rfl⟩

/-- Witness for `exportCsv_header_data_mismatch`: for one order with one line,
the single data row has 8 fields and starts with the escaped order id, while
the header has 7 names. -/
theorem exportCsv_header_data_mismatch_witness :
    csvHeader.length = 7 ∧
    (exportCsvRows
        [{ id := "o1", branch_id := "b1", created_at := "2026-01-01T00:00:00Z",
           payment_type := "CASH", total_amount := 120, status := some "NEW" }]
        [{ order_id := "o1", menu_item_id := "m1", qty := 2, line_total := 100,
           item_name := some "A" }]
        (fun _ => none)).tail.map List.length = [8] := by
  have h := exportCsv_header_data_mismatch
    [{ id := "o1", branch_id := "b1", created_at := "2026-01-01T00:00:00Z",
       payment_type := "CASH", total_amount := 120, status := some "NEW" }]
    [{ order_id := "o1", menu_item_id := "m1", qty := 2, line_total := 100,
       item_name := some "A" }]
    (fun _ => none)
  refine ⟨h.2.1, ?_⟩
  have htail : (exportCsvRows
      [{ id := "o1", branch_id := "b1", created_at := "2026-01-01T00:00:00Z",
         payment_type := "CASH", total_amount := 120, status := some "NEW" }]
      [{ order_id := "o1", menu_item_id := "m1", qty := 2, line_total := 100,
         item_name := some "A" }]
      (fun _ => none)).tail =
      (csvRowsForOrder (fun _ => none)
        [{ order_id := "o1", menu_item_id := "m1", qty := 2, line_total := 100,
           item_name := some "A" }]
        { id := "o1", branch_id := "b1", created_at := "2026-01-01T00:00:00Z",
          payment_type := "CASH", total_amount := 120, status := some "NEW" }) := by
    simp [exportCsvRows, List.mergeSort_singleton]
  rw [htail]
  have hmem : ∀ r ∈ (csvRowsForOrder (fun _ => none)
      [{ order_id := "o1", menu_item_id := "m1", qty := 2, line_total := 100,
         item_name := some "A" }]
      { id := "o1", branch_id := "b1", created_at := "2026-01-01T00:00:00Z",
        payment_type := "CASH", total_amount := 120, status := some "NEW" }),
      r.length = 8 := by
    intro r hr
    refine (h.2.2 r ?_).1
    simp [exportCsvRows, List.mergeSort_singleton]
    exact hr
  have hsingle : (csvRowsForOrder (fun _ => none)
      [{ order_id := "o1", menu_item_id := "m1", qty := 2, line_total := 100,
         item_name := some "A" }]
      { id := "o1", branch_id := "b1", created_at := "2026-01-01T00:00:00Z",
        payment_type := "CASH", total_amount := 120, status := some "NEW" }).length = 1 := by
    unfold csvRowsForOrder
    simp only [List.filter_cons, List.filter_nil]
    norm_num
  rcases hE : csvRowsForOrder (fun _ => none)
      [{ order_id := "o1", menu_item_id := "m1", qty := 2, line_total := 100,
         item_name := some "A" }]
      { id := "o1", branch_id := "b1", created_at := "2026-01-01T00:00:00Z",
        payment_type := "CASH", total_amount := 120, status := some "NEW" } with
    _ | ⟨r, rest⟩
  · rw [hE] at hsingle
    exact absurd hsingle (by norm_num)
  · rw [hE] at hsingle
    have hrest : rest = [] := by
      simp only [List.length_cons] at hsingle
      exact List.length_eq_zero.mp (by omega)
    subst hrest
    have h8 : r.length = 8 := hmem r (by rw [hE]; exact List.mem_singleton.mpr rfl)
    simp [h8]

end Superbecks
